import Mathlib

/-!
Verification of the structured-data and meta-tag extraction core of the
seo-audit-toolkit JavaScript repository (src/javascript/structured-data.js,
which holds the `StructuredDataParser` class and the `MetaExtractor` class).

The development is a shallow embedding: each JavaScript method is translated
into a Lean definition over explicit data.  External collaborators are
modelled as inputs:
 * the HTTP fetch plus the HTML parse (axios + cheerio) deliver a document
   value, or fail with a message — modelled as `Except String _` arguments;
 * `JSON.parse` of a script body is a platform builtin — each JSON-LD script
   is modelled by its parse outcome `Except String Json`;
 * `new Date(s)` validity and `new URL(s)` resolution are platform builtins —
   modelled as boolean / optional-host oracles passed in as parameters;
 * the wall clock (`new Date().toISOString()`) is modelled as an explicit
   `timestamp` argument.

Machine numbers in the scoring paths are small integers, embedded as `Int`
(JavaScript doubles behave exactly like integers in these ranges).
-/

namespace SeoAudit

/-- A JavaScript value as produced by `JSON.parse`: null, boolean, number,
string, array or object (an object is a list of key/value fields with
distinct keys, in insertion order). Numbers that occur in the audited code
paths are integers. -/
inductive Json where
  | null : Json
  | bool : Bool → Json
  | num : Int → Json
  | str : String → Json
  | arr : List Json → Json
  | obj : List (String × Json) → Json

/-- JavaScript truthiness of a value (`if (x)`): null, false, 0 and the
empty string are falsy; every array and object is truthy. -/
def Json.truthy : Json → Bool
  | .null => false
  | .bool b => b
  | .num n => n != 0
  | .str s => s != ""
  | .arr _ => true
  | .obj _ => true

/-- `x && typeof x === 'object'`: the guard used by `_parseJsonLd` to accept
a schema candidate. Arrays and objects satisfy `typeof x === 'object'`;
`null` does too but is falsy, so the conjunction holds exactly for arrays
and objects. -/
def Json.objectLike : Json → Bool
  | .arr _ => true
  | .obj _ => true
  | _ => false

/-- `Array.isArray`. -/
def Json.isArray : Json → Bool
  | .arr _ => true
  | _ => false

mutual
/-- JavaScript string coercion (`String(x)` / template-literal
interpolation / object-key coercion) restricted to the shapes that occur
here. -/
def Json.jsToString : Json → String
  | .null => "null"
  | .bool b => if b then "true" else "false"
  | .num n => toString n
  | .str s => s
  | .arr xs => String.intercalate "," (Json.jsToStringList xs)
  | .obj _ => "[object Object]"

def Json.jsToStringList : List Json → List String
  | [] => []
  | x :: xs => Json.jsToString x :: Json.jsToStringList xs
end

/-- Truthiness of an optional value (a property read that may come back
`undefined`). -/
def optTruthy : Option Json → Bool
  | none => false
  | some v => v.truthy

/-- JavaScript property access `x.k` on an arbitrary value, total model:
objects look the key up, everything else yields `undefined` (`none`). -/
def Json.get : Json → String → Option Json
  | .obj fs, k => (fs.find? (fun f => f.1 == k)).map (·.2)
  | _, _ => none

/-- `x || y` for an optional attribute string against a default value
(attribute reads return `undefined` or a string; `""` is falsy). -/
def jsOrStr (x : Option String) (y : String) : String :=
  match x with
  | some s => if s != "" then s else y
  | none => y

/-- Truthiness of an optional attribute string (`if (attr)`): absent or
empty means falsy. -/
def strTruthy : Option String → Bool
  | none => false
  | some s => s != ""

/-- `s.includes(pat)` for the non-empty literal patterns used in the code,
via contiguous-sublist search on the character list. -/
def charsHaveSub (s pat : List Char) : Bool :=
  match s with
  | [] => pat.isEmpty
  | _ :: rest => pat.isPrefixOf s || charsHaveSub rest pat

/-- `s.includes(pat)`. -/
def strContains (s pat : String) : Bool :=
  charsHaveSub s.toList pat.toList

/-- JavaScript `s.trim()`: strip leading and trailing whitespace. -/
def strTrim (s : String) : String :=
  ⟨((s.toList.dropWhile Char.isWhitespace).reverse.dropWhile Char.isWhitespace).reverse⟩

/-- JavaScript `s.toLowerCase()`. -/
def strToLower (s : String) : String :=
  ⟨s.toList.map Char.toLower⟩

/-- JavaScript `s.startsWith(pat)`. -/
def strStartsWith (s pat : String) : Bool :=
  pat.toList.isPrefixOf s.toList

/-- JavaScript `s.endsWith(pat)`. -/
def strEndsWith (s pat : String) : Bool :=
  pat.toList.reverse.isPrefixOf s.toList.reverse

/-- The characters after the first (leftmost) occurrence of `pat` in `s`,
or `none` when `pat` does not occur. -/
def charsAfterFirst (s pat : List Char) : Option (List Char) :=
  match s with
  | [] => if pat.isEmpty then some [] else none
  | _ :: rest =>
    if pat.isPrefixOf s then some (s.drop pat.length)
    else charsAfterFirst rest pat

/-- An apostrophe character, used to spell string literals of the source
verbatim. -/
def apos : String := String.singleton (Char.ofNat 39)

/-! ## StructuredDataParser: data model -/

/-- A processed schema (`_processSchema`'s `processed` object): format label,
`type` (the raw `@type` value, `"Unknown"` when absent/falsy), `properties`
(all fields whose key does not start with `@` and is not `_format`), and the
per-record validation lists (never written by any code path). -/
structure SchemaRecord where
  format : String
  type : Json
  properties : List (String × Json)
  recErrors : List String
  recWarnings : List String

/-- The mutable part of the `results` object built by
`StructuredDataParser.parse`, minus the `url` and `timestamp` fields, which
are written once into the initial literal and never read or written again. -/
structure CoreState where
  status : String
  formatsJsonLd : List SchemaRecord
  formatsMicrodata : List SchemaRecord
  formatsRdfa : List SchemaRecord
  schemas : List SchemaRecord
  errors : List String
  warnings : List String
  recommendations : List String
  score : Int
  critical : Nat
  warningCount : Nat
  passed : Int
  errorField : Option String

/-- The initial `results` literal of `parse` (lines 26-47), minus
url/timestamp. -/
def initCore : CoreState :=
  { status := "completed"
    formatsJsonLd := [], formatsMicrodata := [], formatsRdfa := []
    schemas := []
    errors := [], warnings := []
    recommendations := []
    score := 100
    critical := 0, warningCount := 0, passed := 0
    errorField := none }

/-- The message of the `TypeError` raised when a missing method is invoked
on the class (Node.js wording). `_processSchema` calls
`this._validateSchemaType(processed)`, but no `_validateSchemaType` method
is defined anywhere in the repository. -/
def validateSchemaTypeMsg : String :=
  "this._validateSchemaType is not a function"

/-- The object built by `_processSchema` before the
`this._validateSchemaType(processed)` call (lines 236-251). -/
def processSchemaRecord (schema : Json) (format : String) : SchemaRecord :=
  let ty := match schema.get "@type" with
    | some v => if v.truthy then v else Json.str "Unknown"
    | none => Json.str "Unknown"
  let keys : List (String × Json) := match schema with
    | .obj fs => fs
    | .arr xs => (xs.enum.map (fun p => (toString p.1, p.2)))
    | _ => []
  { format := format
    type := ty
    properties := keys.filter (fun f => !(strStartsWith f.1 "@") && f.1 != "_format")
    recErrors := [], recWarnings := [] }

/-- `_processSchema` (lines 235-257): builds the processed record and then
calls `this._validateSchemaType(processed)`; that method does not exist on
the class, so the call always raises a `TypeError`, which this embedding
returns as an `Except.error`. -/
def processSchema (schema : Json) (format : String) : Except String SchemaRecord :=
  let _processed := processSchemaRecord schema format
  .error validateSchemaTypeMsg

/-! ## StructuredDataParser: JSON-LD extraction -/

/-- The `schemas.forEach` body of `_parseJsonLd` (lines 97-103): walk the
decoded payload's entries, process each truthy object-like entry, collecting
the pushed records; a `TypeError` from `_processSchema` aborts the loop. -/
def jsonLdLoop : List Json → Except String (List SchemaRecord)
  | [] => .ok []
  | s :: rest =>
    if s.objectLike then
      match processSchema s "JSON-LD" with
      | .ok p => (jsonLdLoop rest).map (fun others => p :: others)
      | .error m => .error m
    else jsonLdLoop rest

/-- One iteration of `scripts.each` in `_parseJsonLd` (lines 90-109): decode
the script body (modelled by its `JSON.parse` outcome), wrap non-arrays as a
singleton, run the loop; any exception is caught, appending
`Invalid JSON-LD: <message>` and bumping the critical counter. -/
def jsonLdScriptStep (r : CoreState) (script : Except String Json) : CoreState :=
  match (do
      let json ← script
      let schemas := match json with
        | .arr xs => xs
        | j => [j]
      jsonLdLoop schemas) with
  | .ok recs =>
      { r with formatsJsonLd := r.formatsJsonLd ++ recs
               schemas := r.schemas ++ recs }
  | .error m =>
      { r with errors := r.errors ++ ["Invalid JSON-LD: " ++ m]
               critical := r.critical + 1 }

/-- `_parseJsonLd` (lines 87-110) over all
`script[type="application/ld+json"]` elements of the document. -/
def parseJsonLd (scripts : List (Except String Json)) (r : CoreState) : CoreState :=
  scripts.foldl jsonLdScriptStep r

/-! ## StructuredDataParser: Microdata and RDFa extraction -/

/-- First-match association lookup on an object's field list
(JavaScript objects have unique keys). -/
def findField (fs : List (String × Json)) (k : String) : Option Json :=
  (fs.find? (fun f => f.1 == k)).map (·.2)

/-- JavaScript property assignment `o[k] = v`: overwrite in place when the
key exists, append otherwise. -/
def setField : List (String × Json) → String → Json → List (String × Json)
  | [], k, v => [(k, v)]
  | f :: fs, k, v => if f.1 == k then (k, v) :: fs else f :: setField fs k v

/-- An element carrying an `itemprop` attribute, as seen by
`_extractMicrodataProperties`: its `itemprop` value, the number of
`[itemscope]` ancestors it has (`$prop.parents('[itemscope]').length`),
whether it itself carries `itemscope`, and its `content`/`src`/`href`
attributes and text. -/
structure MicroProp where
  itemprop : Option String
  itemscopeParents : Nat
  hasItemscope : Bool
  content : Option String
  src : Option String
  href : Option String
  text : String

/-- An element carrying `itemscope`, with its `itemtype` attribute and the
`[itemprop]` descendants `$item.find('[itemprop]')` returns. -/
structure MicroItem where
  itemtype : Option String
  props : List MicroProp

/-- `_extractTypeFromUrl` (lines 658-661):
`url.match(/schema\.org\/(.+)$/)` — everything after the first occurrence
of `schema.org/` provided it is non-empty, else `"Thing"`. -/
def extractTypeFromUrl (url : String) : String :=
  match charsAfterFirst url.toList "schema.org/".toList with
  | some cs => if cs.isEmpty then "Thing" else ⟨cs⟩
  | none => "Thing"

/-- JavaScript coercion of a boolean to a number, as performed by
`bool > 1`. -/
def jsBoolToNum (b : Bool) : Nat := if b then 1 else 0

/-- The filter condition of `_extractMicrodataProperties` (line 151),
exactly as written in the source:
`propName && !$prop.parents('[itemscope]').length > 1`.
By JavaScript operator precedence the `!` binds to the length alone, so the
comparison is `(!length) > 1`, i.e. a boolean coerced to `0` or `1`
compared against `1` — which is false for every length. -/
def microPropGuard (p : MicroProp) : Bool :=
  strTruthy p.itemprop && decide (jsBoolToNum (p.itemscopeParents == 0) > 1)

/-- `_getMicrodataValue` (lines 171-182): nested item-scopes would recurse;
otherwise value precedence is `content` attribute, `src`, `href`, trimmed
text. -/
def getMicrodataValue (p : MicroProp) : Json :=
  if p.hasItemscope then
    -- The source calls `this._extractNestedMicrodata($elem)` here; no such
    -- method exists in the repository, so this branch would raise a
    -- TypeError. It is unreachable: `microPropGuard` is constantly false,
    -- so `_getMicrodataValue` is never invoked (see the C1 theorem).
    Json.null
  else
    Json.str (jsOrStr p.content (jsOrStr p.src (jsOrStr p.href (strTrim p.text))))

/-- The loop body of `_extractMicrodataProperties` (lines 147-164):
guarded by `microPropGuard`; on repeat property names the existing value is
promoted to an array and the new value appended. -/
def microPropStep (sch : List (String × Json)) (p : MicroProp) : List (String × Json) :=
  if microPropGuard p then
    let propName := p.itemprop.getD ""
    let value := getMicrodataValue p
    if optTruthy (findField sch propName) then
      match findField sch propName with
      | some (Json.arr xs) => setField sch propName (Json.arr (xs ++ [value]))
      | some v => setField sch propName (Json.arr [v, value])
      | none => sch
    else setField sch propName value
  else sch

/-- `_extractMicrodataProperties` (lines 144-165). -/
def extractMicrodataProperties (props : List MicroProp)
    (schema : List (String × Json)) : List (String × Json) :=
  props.foldl microPropStep schema

/-- The schema object literal of `_parseMicrodata` (lines 124-131) after
property extraction. -/
def buildMicrodataSchema (itemType : String) (props : List MicroProp) :
    List (String × Json) :=
  extractMicrodataProperties props
    [("@type", Json.str (extractTypeFromUrl itemType)),
     ("@context", Json.str "http://schema.org"),
     ("_format", Json.str "Microdata")]

/-- `_parseMicrodata` (lines 116-138): for each `[itemscope]` element with a
truthy `itemtype`, build the schema object and call `_processSchema`. The
`.each` loop has no try/catch, so the `TypeError` always raised inside
`_processSchema` escapes; the second component carries the thrown message,
with the state mutated so far preserved. -/
def parseMicrodata : List MicroItem → CoreState → CoreState × Option String
  | [], r => (r, none)
  | it :: rest, r =>
    if strTruthy it.itemtype then
      let schema := Json.obj (buildMicrodataSchema (it.itemtype.getD "") it.props)
      match processSchema schema "Microdata" with
      | .ok p =>
          parseMicrodata rest
            { r with formatsMicrodata := r.formatsMicrodata ++ [p]
                     schemas := r.schemas ++ [p] }
      | .error m => (r, some m)
    else parseMicrodata rest r

/-- An element carrying a `property` attribute inside an RDFa scope. -/
structure RdfaProp where
  property : Option String
  content : Option String
  text : String

/-- An element carrying a `typeof` attribute, with its `vocab` attribute and
its `[property]` descendants. -/
structure RdfaEl where
  typeofAttr : Option String
  vocab : Option String
  props : List RdfaProp

/-- The loop body of `_extractRDFaProperties` (lines 220-228): value is
`content` attribute or trimmed text; stored only when both the property name
and the value are truthy; plain assignment, so the last occurrence wins. -/
def rdfaPropStep (sch : List (String × Json)) (p : RdfaProp) : List (String × Json) :=
  let content := jsOrStr p.content (strTrim p.text)
  match p.property with
  | some propName =>
      if propName != "" && content != "" then setField sch propName (Json.str content)
      else sch
  | none => sch

/-- `_extractRDFaProperties` (lines 217-229). -/
def extractRDFaProperties (props : List RdfaProp)
    (schema : List (String × Json)) : List (String × Json) :=
  props.foldl rdfaPropStep schema

/-- `_parseRDFa` (lines 188-211): for each element with a truthy `typeof`,
build the schema object and call `_processSchema`; the always-raised
`TypeError` escapes the `.each` loop (no try/catch), message carried in the
second component. -/
def parseRDFa : List RdfaEl → CoreState → CoreState × Option String
  | [], r => (r, none)
  | el :: rest, r =>
    match el.typeofAttr with
    | some ty =>
      if ty != "" then
        let schema := Json.obj (extractRDFaProperties el.props
          [("@type", Json.str ty),
           ("@context", Json.str (jsOrStr el.vocab "http://schema.org/")),
           ("_format", Json.str "RDFa")])
        match processSchema schema "RDFa" with
        | .ok p =>
            parseRDFa rest
              { r with formatsRdfa := r.formatsRdfa ++ [p]
                       schemas := r.schemas ++ [p] }
        | .error m => (r, some m)
      else parseRDFa rest r
    | none => parseRDFa rest r

/-! ## StructuredDataParser: per-type validators -/

/-- Truthiness of `schema.properties[prop]` (absent reads as `undefined`,
hence falsy). -/
def SchemaRecord.propTruthy (s : SchemaRecord) (k : String) : Bool :=
  optTruthy (findField s.properties k)

/-- `_checkRequiredProperties` (lines 530-539): one error and one critical
increment per missing (falsy) required property. -/
def checkRequiredProperties (schema : SchemaRecord) (required : List String)
    (r : CoreState) : CoreState :=
  required.foldl (fun r prop =>
    if !schema.propTruthy prop then
      { r with errors := r.errors ++
          [schema.type.jsToString ++ " missing required property: " ++ prop]
               critical := r.critical + 1 }
    else r) r

/-- `_checkRecommendedProperties` (lines 545-554): a single combined warning
listing every missing recommended property, one warning-counter increment
in total. -/
def checkRecommendedProperties (schema : SchemaRecord) (recommended : List String)
    (r : CoreState) : CoreState :=
  let missing := recommended.filter (fun prop => !schema.propTruthy prop)
  if missing.length > 0 then
    { r with warnings := r.warnings ++
        [schema.type.jsToString ++ " missing recommended properties: " ++
          String.intercalate ", " missing]
             warningCount := r.warningCount + 1 }
  else r

/-- `_validateOrganization` (lines 292-306). -/
def validateOrganization (schema : SchemaRecord) (r : CoreState) : CoreState :=
  let r := checkRequiredProperties schema ["name", "url"] r
  let r := checkRecommendedProperties schema ["logo", "sameAs", "contactPoint", "address"] r
  let logo := findField schema.properties "logo"
  if optTruthy logo && (match logo with | some (.str _) => true | _ => false) then
    { r with warnings := r.warnings ++
        ["Organization logo should be an ImageObject with width and height"]
             warningCount := r.warningCount + 1 }
  else r

/-- Singular-or-array normalization `Array.isArray(v) ? v : [v]`. -/
def jsToArray : Json → List Json
  | .arr xs => xs
  | v => [v]

/-- The `offers.forEach` body of `_validateProduct` (lines 325-334). -/
def offerStep (r : CoreState) (offer : Json) : CoreState :=
  let r :=
    if !optTruthy (offer.get "price") && !optTruthy (offer.get "priceRange") then
      { r with errors := r.errors ++ ["Product offer missing price information"]
               critical := r.critical + 1 }
    else r
  if !optTruthy (offer.get "priceCurrency") then
    { r with errors := r.errors ++ ["Product offer missing priceCurrency"]
             critical := r.critical + 1 }
  else r

/-- `_validateProduct` (lines 312-344). -/
def validateProduct (schema : SchemaRecord) (r : CoreState) : CoreState :=
  let r := checkRequiredProperties schema ["name", "image"] r
  let r := checkRecommendedProperties schema
    ["description", "sku", "offers", "aggregateRating", "brand", "review"] r
  let offersV := findField schema.properties "offers"
  let r :=
    if optTruthy offersV then
      (jsToArray (offersV.getD Json.null)).foldl offerStep r
    else r
  if !schema.propTruthy "aggregateRating" && !schema.propTruthy "review" then
    { r with warnings := r.warnings ++
        ["Product missing ratings/reviews - needed for rich results"]
             warningCount := r.warningCount + 1 }
  else r

/-- `_validateArticle` (lines 350-376); `dateValid` models `_isValidDate`,
i.e. `new Date(x)` producing a non-NaN date. -/
def validateArticle (dateValid : Json → Bool) (schema : SchemaRecord)
    (r : CoreState) : CoreState :=
  let r := checkRequiredProperties schema ["headline", "image", "author", "datePublished"] r
  let r := checkRecommendedProperties schema
    ["dateModified", "publisher", "mainEntityOfPage", "description"] r
  let r :=
    if schema.propTruthy "image" then
      let images := jsToArray ((findField schema.properties "image").getD Json.null)
      if images.length == 0 then
        { r with errors := r.errors ++ ["Article requires at least one image"]
                 critical := r.critical + 1 }
      else r
    else r
  if schema.propTruthy "datePublished" then
    if !dateValid ((findField schema.properties "datePublished").getD Json.null) then
      { r with errors := r.errors ++ ["Invalid datePublished format - use ISO 8601"]
               critical := r.critical + 1 }
    else r
  else r

/-- The indexed `items.forEach` body of `_validateBreadcrumbList`
(lines 393-406). -/
def breadcrumbItemStep (r : CoreState) (p : Nat × Json) : CoreState :=
  let r :=
    if !optTruthy (p.2.get "position") then
      { r with errors := r.errors ++
          ["BreadcrumbList item " ++ toString p.1 ++ " missing position"]
               critical := r.critical + 1 }
    else r
  if !optTruthy (p.2.get "name") then
    { r with errors := r.errors ++
        ["BreadcrumbList item " ++ toString p.1 ++ " missing name"]
             critical := r.critical + 1 }
  else r

/-- `_validateBreadcrumbList` (lines 382-407). -/
def validateBreadcrumbList (schema : SchemaRecord) (r : CoreState) : CoreState :=
  if !schema.propTruthy "itemListElement" then
    { r with errors := r.errors ++ ["BreadcrumbList missing itemListElement"]
             critical := r.critical + 1 }
  else
    let items := jsToArray ((findField schema.properties "itemListElement").getD Json.null)
    items.enum.foldl breadcrumbItemStep r

/-- The indexed `questions.forEach` body of `_validateFAQPage`
(lines 424-438). -/
def faqQuestionStep (r : CoreState) (p : Nat × Json) : CoreState :=
  let r :=
    if !optTruthy (p.2.get "name") then
      { r with errors := r.errors ++ ["FAQ question " ++ toString p.1 ++ " missing name"]
               critical := r.critical + 1 }
    else r
  if !optTruthy (p.2.get "acceptedAnswer") then
    { r with errors := r.errors ++
        ["FAQ question " ++ toString p.1 ++ " missing acceptedAnswer"]
             critical := r.critical + 1 }
  else
    if !optTruthy (((p.2.get "acceptedAnswer").getD Json.null).get "text") then
      { r with errors := r.errors ++
          ["FAQ question " ++ toString p.1 ++ " acceptedAnswer missing text"]
               critical := r.critical + 1 }
    else r

/-- `_validateFAQPage` (lines 413-439). -/
def validateFAQPage (schema : SchemaRecord) (r : CoreState) : CoreState :=
  if !schema.propTruthy "mainEntity" then
    { r with errors := r.errors ++ ["FAQPage missing mainEntity"]
             critical := r.critical + 1 }
  else
    let questions := jsToArray ((findField schema.properties "mainEntity").getD Json.null)
    questions.enum.foldl faqQuestionStep r

/-- `_validateRecipe` (lines 445-454). -/
def validateRecipe (schema : SchemaRecord) (r : CoreState) : CoreState :=
  let r := checkRequiredProperties schema
    ["name", "image", "recipeIngredient", "recipeInstructions"] r
  checkRecommendedProperties schema
    ["prepTime", "cookTime", "totalTime", "recipeYield",
     "nutrition", "aggregateRating", "author", "description"] r

/-- `_validateEvent` (lines 460-472). -/
def validateEvent (dateValid : Json → Bool) (schema : SchemaRecord)
    (r : CoreState) : CoreState :=
  let r := checkRequiredProperties schema ["name", "startDate", "location"] r
  let r := checkRecommendedProperties schema
    ["endDate", "description", "image", "performer", "offers"] r
  if schema.propTruthy "startDate" &&
      !dateValid ((findField schema.properties "startDate").getD Json.null) then
    { r with errors := r.errors ++ ["Invalid startDate format - use ISO 8601"]
             critical := r.critical + 1 }
  else r

/-- `_validatePerson` (lines 478-484). -/
def validatePerson (schema : SchemaRecord) (r : CoreState) : CoreState :=
  let r := checkRequiredProperties schema ["name"] r
  checkRecommendedProperties schema ["image", "jobTitle", "worksFor", "sameAs", "url"] r

/-- `_validateWebSite` (lines 490-504). -/
def validateWebSite (schema : SchemaRecord) (r : CoreState) : CoreState :=
  let r := checkRequiredProperties schema ["name", "url"] r
  let r := checkRecommendedProperties schema ["potentialAction", "publisher"] r
  if !schema.propTruthy "potentialAction" then
    { r with warnings := r.warnings ++
        ["WebSite schema missing SearchAction - add for sitelinks searchbox"]
             warningCount := r.warningCount + 1 }
  else r

/-- `_validateSearchAction` (lines 510-524). -/
def validateSearchAction (schema : SchemaRecord) (r : CoreState) : CoreState :=
  let r := checkRequiredProperties schema ["target", "query-input"] r
  let target := findField schema.properties "target"
  if optTruthy target && (match target with | some (.str _) => true | _ => false) then
    match target with
    | some (.str s) =>
        if !strContains s "{search_term_string}" then
          { r with errors := r.errors ++
              ["SearchAction target must include {search_term_string} placeholder"]
                   critical := r.critical + 1 }
        else r
    | _ => r
  else r

/-- The `typeValidators` lookup table of `_validateSchemas` (lines 264-278),
keyed by the string coercion of the record's `type`. The `LocalBusiness`
entry refers to `this._validateLocalBusiness`, a method that is not defined
in the repository, so its table value is `undefined` and the `if (validator)`
guard skips it. -/
def dispatchValidator (dateValid : Json → Bool) (t : String) :
    Option (SchemaRecord → CoreState → CoreState) :=
  match t with
  | "Organization" => some validateOrganization
  | "LocalBusiness" => none
  | "Product" => some validateProduct
  | "Article" => some (validateArticle dateValid)
  | "BlogPosting" => some (validateArticle dateValid)
  | "NewsArticle" => some (validateArticle dateValid)
  | "BreadcrumbList" => some validateBreadcrumbList
  | "FAQPage" => some validateFAQPage
  | "Recipe" => some validateRecipe
  | "Event" => some (validateEvent dateValid)
  | "Person" => some validatePerson
  | "WebSite" => some validateWebSite
  | "SearchAction" => some validateSearchAction
  | _ => none

/-- `_validateSchemas` (lines 263-286). -/
def validateSchemas (dateValid : Json → Bool) (r : CoreState) : CoreState :=
  r.schemas.foldl (fun st sch =>
    match dispatchValidator dateValid sch.type.jsToString with
    | some v => v sch st
    | none => st) r

/-! ## StructuredDataParser: recommendations and score -/

/-- JavaScript `===` between a value and a string literal, as used by
`Array.prototype.includes`. -/
def jsStrictEqStr (v : Json) (s : String) : Bool :=
  match v with
  | .str x => x == s
  | _ => false

/-- `_detectPageType` (lines 610-626). -/
def detectPageType (url : String) (schemaTypes : List Json) : String :=
  let urlLower := strToLower url
  if strEndsWith url "/" || strContains urlLower "/home" then "homepage"
  else if strContains urlLower "/product" || strContains urlLower "/item" then "product"
  else if strContains urlLower "/article" || strContains urlLower "/blog" then "article"
  else if strContains urlLower "/category" || strContains urlLower "/shop" then "category"
  else if strContains urlLower "/faq" then "faq"
  else if strContains urlLower "/contact" || strContains urlLower "/location" then "local"
  else if strContains urlLower "/event" then "event"
  else if schemaTypes.any (fun t => jsStrictEqStr t "Product") then "product"
  else if schemaTypes.any (fun t =>
      jsStrictEqStr t "Article" || jsStrictEqStr t "BlogPosting" ||
      jsStrictEqStr t "NewsArticle") then "article"
  else "general"

/-- The per-bucket suggestion lists of `_analyzeAndRecommend`
(lines 565-573); `recommendations[pageType] || recommendations.homepage`
falls back to the homepage list for `general` (line 575). -/
def bucketRecommendations (pageType : String) : List String :=
  match pageType with
  | "homepage" => ["Organization or LocalBusiness", "WebSite with SearchAction", "BreadcrumbList"]
  | "product" => ["Product with offers and reviews", "BreadcrumbList", "Organization"]
  | "article" => ["Article or BlogPosting", "BreadcrumbList", "Author (Person)", "Publisher"]
  | "category" => ["BreadcrumbList", "ItemList", "WebPage"]
  | "faq" => ["FAQPage", "BreadcrumbList", "Organization"]
  | "local" => ["LocalBusiness with address", "OpeningHoursSpecification", "Review"]
  | "event" => ["Event with location and dates", "Organization", "Offers"]
  | _ => ["Organization or LocalBusiness", "WebSite with SearchAction", "BreadcrumbList"]

/-- `_analyzeAndRecommend` (lines 560-604): per-bucket suggestions whose
name is not already matched case-insensitively by an extracted schema type,
the no-structured-data note, the JSON-LD preference note, and the residual
`passed` counter. -/
def analyzeAndRecommend (url : String) (r : CoreState) : CoreState :=
  let schemaTypes := r.schemas.map (·.type)
  let pageType := detectPageType url schemaTypes
  let recommended := bucketRecommendations pageType
  let recs := recommended.foldl (fun acc rec =>
    let hasSchema := schemaTypes.any (fun ty =>
      strContains (strToLower rec) (strToLower (Json.jsToString ty)))
    if !hasSchema then acc ++ ["Consider adding " ++ rec ++ " schema"] else acc) []
  let recs :=
    if r.schemas.length == 0 then
      recs ++ ["No structured data found - add appropriate schemas for rich results"]
    else recs
  let recs :=
    if r.formatsJsonLd.length == 0 then
      recs ++ ["Use JSON-LD format for structured data (Google" ++ apos ++
        "s preferred format)"]
    else recs
  { r with recommendations := r.recommendations ++ recs
           passed := (r.schemas.length : Int) - (r.critical : Int) - (r.warningCount : Int) }

/-- `_calculateScore` (lines 632-652): start at 100, minus 15 per error and
5 per warning, plus 10 when any schema was found and 5 more when any JSON-LD
record exists, clamped by `Math.max(0, Math.min(100, score))`. -/
def calculateScore (numErrors numWarnings numSchemas numJsonLd : Nat) : Int :=
  let score : Int := 100
  let score := score - (numErrors : Int) * 15
  let score := score - (numWarnings : Int) * 5
  let score := if numSchemas > 0 then score + 10 else score
  let score := if numJsonLd > 0 then score + 5 else score
  max 0 (min 100 score)

/-- The `results.score` assignment of `_calculateScore` on the audit
state. -/
def calculateScoreStep (r : CoreState) : CoreState :=
  { r with score := (calculateScore r.errors.length r.warnings.length
      r.schemas.length r.formatsJsonLd.length) }

/-! ## StructuredDataParser: the parse pipeline -/

/-- The document as seen by `parse`: the `JSON.parse` outcome of each
JSON-LD script block, the `[itemscope]` elements and the `[typeof]`
elements. -/
structure SDDoc where
  scripts : List (Except String Json)
  microdataItems : List MicroItem
  rdfaElements : List RdfaEl

/-- The `catch` block of `parse` (lines 74-78): record the error status and
message and append the fetch-failure entry; everything mutated before the
throw is preserved. -/
def parseCatch (r : CoreState) (m : String) : CoreState :=
  { r with status := "error"
           errorField := some m
           errors := r.errors ++ ["Failed to fetch URL: " ++ m] }

/-- The body of `parse` (lines 49-78) over a fetch outcome: on a successful
fetch run the format parsers, validation, recommendations and scoring; any
exception (including the `TypeError` from the missing `_validateSchemaType`
method escaping the Microdata/RDFa loops) is caught by the single `catch`. -/
def parseCore (url : String) (fetched : Except String SDDoc)
    (dateValid : Json → Bool) : CoreState :=
  match fetched with
  | .error m => parseCatch initCore m
  | .ok doc =>
    let r := parseJsonLd doc.scripts initCore
    match parseMicrodata doc.microdataItems r with
    | (r, some m) => parseCatch r m
    | (r, none) =>
      match parseRDFa doc.rdfaElements r with
      | (r, some m) => parseCatch r m
      | (r, none) =>
        let r := validateSchemas dateValid r
        let r := analyzeAndRecommend url r
        calculateScoreStep r

/-- The full result record returned by `parse`, with the `url` and
`timestamp` fields that the source writes once into the initial literal and
never touches again. -/
structure AuditResult where
  url : String
  timestamp : String
  status : String
  formatsJsonLd : List SchemaRecord
  formatsMicrodata : List SchemaRecord
  formatsRdfa : List SchemaRecord
  schemas : List SchemaRecord
  errors : List String
  warnings : List String
  recommendations : List String
  score : Int
  critical : Nat
  warningCount : Nat
  passed : Int
  errorField : Option String

/-- `StructuredDataParser.parse` (lines 25-81); the timestamp argument
models `new Date().toISOString()`. -/
def parse (url : String) (fetched : Except String SDDoc)
    (dateValid : Json → Bool) (timestamp : String) : AuditResult :=
  let r := parseCore url fetched dateValid
  { url := url, timestamp := timestamp
    status := r.status
    formatsJsonLd := r.formatsJsonLd
    formatsMicrodata := r.formatsMicrodata
    formatsRdfa := r.formatsRdfa
    schemas := r.schemas
    errors := r.errors
    warnings := r.warnings
    recommendations := r.recommendations
    score := r.score
    critical := r.critical
    warningCount := r.warningCount
    passed := r.passed
    errorField := r.errorField }

/-! ## MetaExtractor: data model -/

/-- A stored `content`/`length` pair (`results.meta.title` /
`results.meta.description`). -/
structure MetaEntry where
  content : String
  length : Nat

/-- An `img` element as read by `_extractImages`: its raw attributes. -/
structure ImgEl where
  src : Option String
  alt : Option String
  titleAttr : Option String
  width : Option String
  height : Option String

/-- The stored image record (`imageInfo`, lines 1079-1085), with `|| ''`
defaults. -/
structure ImageInfo where
  src : String
  alt : String
  titleAttr : String
  width : String
  height : String

/-- An `a[href]` element as read by `_extractLinks`: its `href` value (the
selector guarantees the attribute exists, but it may be empty) and its `rel`
attribute. -/
structure AnchorEl where
  href : String
  rel : Option String

/-- The document as seen by `MetaExtractor.extract`: the answers of the
cheerio queries the method performs. -/
structure MetaDoc where
  titleText : String
  description : Option String
  keywords : Option String
  robots : Option String
  viewport : Option String
  charsetAttr : Option String
  httpEquivContent : Option String
  ogTitle : Option String
  ogDescription : Option String
  ogImage : Option String
  ogUrl : Option String
  ogType : Option String
  ogSiteName : Option String
  twCard : Option String
  twTitle : Option String
  twDescription : Option String
  twImage : Option String
  twSite : Option String
  twCreator : Option String
  canonical : Option String
  h1 : List String
  h2 : List String
  h3 : List String
  h4 : List String
  h5 : List String
  h6 : List String
  imgs : List ImgEl
  anchors : List AnchorEl

/-- Store a tag's content when truthy, trimmed (the
`results.meta[...] = content.trim()` pattern). -/
def storeTruthy (o : Option String) : Option String :=
  match o with
  | some s => if s != "" then some (strTrim s) else none
  | none => none

/-- Falsiness of a stored meta field (`!results.meta[...]`): absent or
empty string. -/
def storedFalsy (o : Option String) : Bool :=
  match o with
  | some s => s == ""
  | none => true

/-! ## MetaExtractor: extraction phases

Each private method both stores fields and pushes issue/warning strings and
subtracts score points; every phase is embedded as a function returning the
stored fields, the pushed lists and the total deduction (the source only
ever subtracts, so the deduction is a natural number). -/

/-- Result of `_extractTitle`. -/
structure TitleRes where
  title : Option MetaEntry
  issues : List String
  warnings : List String
  ded : Nat

/-- `_extractTitle` (lines 849-877). -/
def extractTitle (titleText : String) : TitleRes :=
  let title := strTrim titleText
  if title == "" then
    { title := none, issues := ["Missing page title"], warnings := [], ded := 20 }
  else
    let lengthChecks : List String × Nat :=
      if title.length < 30 then
        (["Title too short (" ++ toString title.length ++
          " chars) - aim for 30-60 characters"], 5)
      else if title.length > 60 then
        (["Title too long (" ++ toString title.length ++
          " chars) - keep under 60 characters"], 5)
      else ([], 0)
    let genericChecks : List String × Nat :=
      if ["home", "index", "untitled", "welcome"].contains (strToLower title) then
        (["Generic page title detected - make it unique and descriptive"], 10)
      else ([], 0)
    { title := some { content := title, length := title.length }
      issues := genericChecks.1
      warnings := lengthChecks.1
      ded := lengthChecks.2 + genericChecks.2 }

/-- Result of `_extractMetaTags` (description, keywords, robots, viewport,
charset, Open Graph and Twitter Card tags). -/
structure MetaTagsRes where
  description : Option MetaEntry
  keywords : Option String
  robots : Option String
  viewport : Option String
  charset : Option String
  ogTitle : Option String
  ogDescription : Option String
  ogImage : Option String
  ogUrl : Option String
  ogType : Option String
  ogSiteName : Option String
  twCard : Option String
  twTitle : Option String
  twDescription : Option String
  twImage : Option String
  twSite : Option String
  twCreator : Option String
  issues : List String
  warnings : List String
  ded : Nat

/-- The meta-description block of `_extractMetaTags` (lines 885-903):
stored entry, pushed issues, pushed warnings and deduction. The length
thresholds read the raw attribute value; the stored entry is trimmed. -/
def metaDescPart (o : Option String) : Option MetaEntry × List String × List String × Nat :=
  match o with
  | some d =>
    if d != "" then
      if d.length < 120 then
        (some { content := strTrim d, length := (strTrim d).length }, [],
          ["Description too short (" ++ toString d.length ++
            " chars) - aim for 120-160 characters"], 5)
      else if d.length > 160 then
        (some { content := strTrim d, length := (strTrim d).length }, [],
          ["Description too long (" ++ toString d.length ++
            " chars) - keep under 160 characters"], 5)
      else (some { content := strTrim d, length := (strTrim d).length }, [], [], 0)
    else (none, ["Missing meta description"], [], 15)
  | none => (none, ["Missing meta description"], [], 15)

/-- The robots block of `_extractMetaTags` (lines 912-923): indexing
warnings only, no deduction. -/
def metaRobotsWarns (o : Option String) : List String :=
  match o with
  | some robots =>
    if robots != "" then
      (if strContains robots "noindex" then
        ["Page is set to noindex - ensure this is intentional"] else []) ++
      (if strContains robots "nofollow" then
        ["Page is set to nofollow - this prevents link equity flow"] else [])
    else []
  | none => []

/-- The viewport block of `_extractMetaTags` (lines 926-940): stored value,
issue and deduction when missing, shape warnings otherwise. -/
def metaViewportPart (o : Option String) : Option String × List String × List String × Nat :=
  match o with
  | some v =>
    if v != "" then
      (some (strTrim v), [],
        (if !strContains v "width=device-width" then
          ["Viewport should include width=device-width"] else []) ++
        (if !strContains v "initial-scale=1" then
          ["Viewport should include initial-scale=1"] else []), 0)
    else (none, ["Missing viewport meta tag - critical for mobile optimization"], [], 10)
  | none => (none, ["Missing viewport meta tag - critical for mobile optimization"], [], 10)

/-- `_extractOpenGraphTags` (lines 960-987): warnings and deduction, given
the six tag contents. -/
def metaOgPart (ogTitle ogDescription ogImage ogUrl ogType ogSiteName : Option String) :
    List String × Nat :=
  let hasOgTags := strTruthy ogTitle || strTruthy ogDescription ||
    strTruthy ogImage || strTruthy ogUrl || strTruthy ogType || strTruthy ogSiteName
  if !hasOgTags then
    (["No Open Graph tags found - consider adding for better social sharing"], 5)
  else
    ((if storedFalsy (storeTruthy ogTitle) then ["Missing og:title tag"] else []) ++
     (if storedFalsy (storeTruthy ogDescription) then ["Missing og:description tag"] else []) ++
     (if storedFalsy (storeTruthy ogImage) then
       ["Missing og:image tag - important for social sharing"] else []), 0)

/-- `_extractTwitterCardTags` (lines 993-1009): warning and deduction when
none of the six tags is present. -/
def metaTwPart (twCard twTitle twDescription twImage twSite twCreator : Option String) :
    List String × Nat :=
  let hasTwitterTags := strTruthy twCard || strTruthy twTitle ||
    strTruthy twDescription || strTruthy twImage || strTruthy twSite ||
    strTruthy twCreator
  if !hasTwitterTags then
    (["No Twitter Card tags found - consider adding for Twitter sharing"], 3)
  else ([], 0)

/-- `_extractMetaTags` (lines 883-954) with `_extractOpenGraphTags`
(lines 960-987) and `_extractTwitterCardTags` (lines 993-1009). -/
def extractMetaTags (doc : MetaDoc) : MetaTagsRes :=
  let descPart := metaDescPart doc.description
  let viewportPart := metaViewportPart doc.viewport
  let charsetVal : Option String :=
    if strTruthy doc.charsetAttr then doc.charsetAttr else doc.httpEquivContent
  let ogPart := metaOgPart doc.ogTitle doc.ogDescription doc.ogImage
    doc.ogUrl doc.ogType doc.ogSiteName
  let twPart := metaTwPart doc.twCard doc.twTitle doc.twDescription
    doc.twImage doc.twSite doc.twCreator
  { description := descPart.1
    keywords := storeTruthy doc.keywords
    robots := storeTruthy doc.robots
    viewport := viewportPart.1
    charset := if strTruthy charsetVal then charsetVal else none
    ogTitle := storeTruthy doc.ogTitle, ogDescription := storeTruthy doc.ogDescription
    ogImage := storeTruthy doc.ogImage, ogUrl := storeTruthy doc.ogUrl
    ogType := storeTruthy doc.ogType, ogSiteName := storeTruthy doc.ogSiteName
    twCard := storeTruthy doc.twCard, twTitle := storeTruthy doc.twTitle
    twDescription := storeTruthy doc.twDescription, twImage := storeTruthy doc.twImage
    twSite := storeTruthy doc.twSite, twCreator := storeTruthy doc.twCreator
    issues := descPart.2.1 ++ viewportPart.2.1
    warnings := descPart.2.2.1 ++ metaRobotsWarns doc.robots ++ viewportPart.2.2.1 ++
      ogPart.1 ++ twPart.1
    ded := descPart.2.2.2 + viewportPart.2.2.2 + ogPart.2 + twPart.2 }

/-- Result of `_extractCanonical`. -/
structure CanonicalRes where
  canonical : Option String
  issues : List String
  warnings : List String
  ded : Nat

/-- `_extractCanonical` (lines 1015-1032); `urlValid` models whether
`new URL(canonical)` succeeds on the raw attribute value. -/
def extractCanonical (canonical : Option String) (urlValid : String → Bool) :
    CanonicalRes :=
  match canonical with
  | some c =>
    if c != "" then
      if !urlValid c then
        { canonical := some (strTrim c), issues := ["Invalid canonical URL format"]
          warnings := [], ded := 5 }
      else
        { canonical := some (strTrim c), issues := [], warnings := [], ded := 0 }
    else
      { canonical := none, issues := []
        warnings := ["No canonical URL found - consider adding to prevent duplicate content issues"]
        ded := 5 }
  | none =>
      { canonical := none, issues := []
        warnings := ["No canonical URL found - consider adding to prevent duplicate content issues"]
        ded := 5 }

/-- Result of `_extractHeadings`. -/
structure HeadingsRes where
  h1 : List String
  h2 : List String
  h3 : List String
  h4 : List String
  h5 : List String
  h6 : List String
  issues : List String
  warnings : List String
  ded : Nat

/-- Trimmed non-empty heading texts, in document order (the
`if (text) push` loop of lines 1041-1048). -/
def cleanHeadings (l : List String) : List String :=
  (l.map strTrim).filter (fun s => s != "")

/-- `_extractHeadings` (lines 1038-1064). -/
def extractHeadings (doc : MetaDoc) : HeadingsRes :=
  let h1 := cleanHeadings doc.h1
  let h2 := cleanHeadings doc.h2
  let h3 := cleanHeadings doc.h3
  let h1Part : List String × List String × Nat :=
    if h1.length == 0 then
      (["No H1 tag found - add exactly one H1 tag"], [], 10)
    else if h1.length > 1 then
      ([], ["Multiple H1 tags found (" ++ toString h1.length ++
        ") - use only one H1 per page"], 5)
    else ([], [], 0)
  let hierarchyPart : List String × Nat :=
    if h3.length > 0 && h2.length == 0 then
      (["H3 tags found without H2 - maintain proper heading hierarchy"], 3)
    else ([], 0)
  { h1 := h1, h2 := h2, h3 := h3
    h4 := cleanHeadings doc.h4, h5 := cleanHeadings doc.h5, h6 := cleanHeadings doc.h6
    issues := h1Part.1
    warnings := h1Part.2.1 ++ hierarchyPart.1
    ded := h1Part.2.2 + hierarchyPart.2 }

/-- The counters and stored records produced by the `$('img').each` loop of
`_extractImages` (lines 1071-1095). -/
structure ImagesScan where
  total : Nat
  withAlt : Nat
  withoutAlt : Nat
  infos : List ImageInfo

/-- Whether an `img` is counted at all: `if (src)` — the attribute is
present and non-empty. -/
def imgCounted (i : ImgEl) : Bool := strTruthy i.src

/-- Whether a counted `img` goes to `withAlt`: `alt && alt.trim()`. -/
def imgGoodAlt (i : ImgEl) : Bool :=
  match i.alt with
  | some a => a != "" && strTrim a != ""
  | none => false

/-- The `$('img').each` loop of `_extractImages`. -/
def scanImages : List ImgEl → ImagesScan
  | [] => { total := 0, withAlt := 0, withoutAlt := 0, infos := [] }
  | i :: rest =>
    let s := scanImages rest
    if imgCounted i then
      let info : ImageInfo :=
        { src := i.src.getD ""
          alt := jsOrStr i.alt ""
          titleAttr := jsOrStr i.titleAttr ""
          width := jsOrStr i.width ""
          height := jsOrStr i.height "" }
      if imgGoodAlt i then
        { total := s.total + 1, withAlt := s.withAlt + 1, withoutAlt := s.withoutAlt
          infos := info :: s.infos }
      else
        { total := s.total + 1, withAlt := s.withAlt, withoutAlt := s.withoutAlt + 1
          infos := info :: s.infos }
    else s

/-- Result of `_extractImages`. -/
structure ImagesRes where
  scan : ImagesScan
  issues : List String
  warnings : List String
  ded : Nat

/-- `_extractImages` (lines 1070-1109): the alt-text issue deducts
`Math.min(15, withoutAlt * 2)`, the missing-dimensions warning deducts
`Math.min(5, count)`. -/
def extractImages (imgs : List ImgEl) : ImagesRes :=
  let s := scanImages imgs
  let altPart : List String × Nat :=
    if s.withoutAlt > 0 then
      ([toString s.withoutAlt ++
        " images missing alt text - add descriptive alt text for accessibility and SEO"],
        min 15 (s.withoutAlt * 2))
    else ([], 0)
  let missingDimensions :=
    (s.infos.filter (fun img => img.width == "" || img.height == "")).length
  let dimPart : List String × Nat :=
    if missingDimensions > 0 then
      ([toString missingDimensions ++
        " images missing width/height attributes - add to prevent layout shift"],
        min 5 missingDimensions)
    else ([], 0)
  { scan := s, issues := altPart.1, warnings := dimPart.1
    ded := altPart.2 + dimPart.2 }

/-- The counters produced by the `$('a[href]').each` loop of
`_extractLinks` (lines 1116-1139). -/
structure LinksScan where
  total : Nat
  internal : Nat
  external : Nat
  noRel : Nat

/-- Whether an anchor is considered at all:
`if (!href || href.startsWith('#')) return`. -/
def anchorConsidered (a : AnchorEl) : Bool :=
  a.href != "" && !(strStartsWith a.href "#")

/-- The `$('a[href]').each` loop of `_extractLinks`; `resolveHost` models
`new URL(href, pageUrl).hostname`, `none` meaning the constructor throws.
Observe that `results.links.total++` runs before the `try`, so a malformed
href is counted in `total` but in neither `internal` nor `external`. -/
def scanLinks (resolveHost : String → Option String) (pageHost : String) :
    List AnchorEl → LinksScan
  | [] => { total := 0, internal := 0, external := 0, noRel := 0 }
  | a :: rest =>
    let s := scanLinks resolveHost pageHost rest
    if anchorConsidered a then
      match resolveHost a.href with
      | some h =>
        if h == pageHost then
          { s with total := s.total + 1, internal := s.internal + 1 }
        else
          let rel := jsOrStr a.rel ""
          if !strContains rel "nofollow" && !strContains rel "noopener" then
            { s with total := s.total + 1, external := s.external + 1
                     noRel := s.noRel + 1 }
          else
            { s with total := s.total + 1, external := s.external + 1 }
      | none => { s with total := s.total + 1 }
    else s

/-- Result of `_extractLinks`: counters plus the aggregated rel warning
(pushed once when any external link lacks both `rel` values). -/
structure LinksRes where
  scan : LinksScan
  warnings : List String

/-- `_extractLinks` (lines 1115-1145). -/
def extractLinks (resolveHost : String → Option String) (pageHost : String)
    (anchors : List AnchorEl) : LinksRes :=
  let s := scanLinks resolveHost pageHost anchors
  { scan := s
    warnings :=
      if s.noRel > 0 then
        [toString s.noRel ++
          " external links missing rel=\"nofollow\" or rel=\"noopener\""]
      else [] }

/-! ## MetaExtractor: result assembly -/

/-- The result record of `MetaExtractor.extract` (lines 755-800), with the
`url` and `timestamp` written once at construction. -/
structure MetaAuditResult where
  url : String
  timestamp : String
  status : String
  title : Option MetaEntry
  description : Option MetaEntry
  keywords : Option String
  robots : Option String
  viewport : Option String
  charset : Option String
  canonical : Option String
  ogTitle : Option String
  ogDescription : Option String
  ogImage : Option String
  ogUrl : Option String
  ogType : Option String
  ogSiteName : Option String
  twCard : Option String
  twTitle : Option String
  twDescription : Option String
  twImage : Option String
  twSite : Option String
  twCreator : Option String
  h1 : List String
  h2 : List String
  h3 : List String
  h4 : List String
  h5 : List String
  h6 : List String
  imagesTotal : Nat
  imagesWithAlt : Nat
  imagesWithoutAlt : Nat
  imagesList : List ImageInfo
  linksInternal : Nat
  linksExternal : Nat
  linksTotal : Nat
  issues : List String
  warnings : List String
  recommendations : List String
  score : Int
  errorField : Option String

/-- `_analyzeResults` (lines 1151-1188): the recommendation list assigned to
the result before `extract` returns. -/
def analyzeResults (title description : Option MetaEntry)
    (viewport ogImage : Option String) (h1 : List String)
    (withoutAlt : Nat) : List String :=
  (if title.isNone then
    ["Add a unique, descriptive page title between 30-60 characters"] else []) ++
  (if description.isNone then
    ["Add a compelling meta description between 120-160 characters"] else []) ++
  (if storedFalsy viewport then
    ["Add viewport meta tag: <meta name=\"viewport\" content=\"width=device-width, initial-scale=1\">"]
   else []) ++
  (if storedFalsy ogImage then
    ["Add Open Graph image for better social media sharing"] else []) ++
  (if h1.length == 0 then
    ["Add an H1 tag that includes your target keywords"] else []) ++
  (if withoutAlt > 0 then
    ["Add descriptive alt text to all images for accessibility and SEO"] else []) ++
  ["Consider adding structured data (Schema.org) for rich snippets"]

/-- The error-path record of `extract` (lines 836-840): the `catch` keeps
the freshly initialised result — score still 100 — and records the status,
message and the `Failed to analyze URL` issue. -/
def metaErrorResult (url timestamp m : String) : MetaAuditResult :=
  { url := url, timestamp := timestamp, status := "error"
    title := none, description := none
    keywords := none, robots := none, viewport := none, charset := none
    canonical := none
    ogTitle := none, ogDescription := none, ogImage := none, ogUrl := none
    ogType := none, ogSiteName := none
    twCard := none, twTitle := none, twDescription := none, twImage := none
    twSite := none, twCreator := none
    h1 := [], h2 := [], h3 := [], h4 := [], h5 := [], h6 := []
    imagesTotal := 0, imagesWithAlt := 0, imagesWithoutAlt := 0, imagesList := []
    linksInternal := 0, linksExternal := 0, linksTotal := 0
    issues := ["Failed to analyze URL: " ++ m]
    warnings := [], recommendations := []
    score := 100
    errorField := some m }

/-- `MetaExtractor.extract` (lines 754-843). A successful fetch supplies the
document together with `new URL(url).hostname` (the `pageUrl` of line 813);
a failed fetch — or a throwing `new URL(url)` — supplies the thrown
message. `urlValid` and `resolveHost` model the platform URL parser. The
timestamp argument models `new Date().toISOString()`. -/
def extract (url : String) (fetched : Except String (MetaDoc × String))
    (urlValid : String → Bool) (resolveHost : String → Option String)
    (timestamp : String) : MetaAuditResult :=
  match fetched with
  | .error m => metaErrorResult url timestamp m
  | .ok (doc, pageHost) =>
    let t := extractTitle doc.titleText
    let m := extractMetaTags doc
    let c := extractCanonical doc.canonical urlValid
    let h := extractHeadings doc
    let im := extractImages doc.imgs
    let l := extractLinks resolveHost pageHost doc.anchors
    { url := url, timestamp := timestamp, status := "completed"
      title := t.title
      description := m.description
      keywords := m.keywords, robots := m.robots, viewport := m.viewport
      charset := m.charset
      canonical := c.canonical
      ogTitle := m.ogTitle, ogDescription := m.ogDescription, ogImage := m.ogImage
      ogUrl := m.ogUrl, ogType := m.ogType, ogSiteName := m.ogSiteName
      twCard := m.twCard, twTitle := m.twTitle, twDescription := m.twDescription
      twImage := m.twImage, twSite := m.twSite, twCreator := m.twCreator
      h1 := h.h1, h2 := h.h2, h3 := h.h3, h4 := h.h4, h5 := h.h5, h6 := h.h6
      imagesTotal := im.scan.total
      imagesWithAlt := im.scan.withAlt
      imagesWithoutAlt := im.scan.withoutAlt
      imagesList := im.scan.infos
      linksInternal := l.scan.internal
      linksExternal := l.scan.external
      linksTotal := l.scan.total
      issues := t.issues ++ m.issues ++ c.issues ++ h.issues ++ im.issues
      warnings := t.warnings ++ m.warnings ++ c.warnings ++ h.warnings ++
        im.warnings ++ l.warnings
      recommendations := analyzeResults t.title m.description m.viewport
        m.ogImage h.h1 im.scan.withoutAlt
      score := 100 - ((t.ded + m.ded + c.ded + h.ded + im.ded : Nat) : Int)
      errorField := none }

/-! ## MetaExtractor: CSV rendering -/

/-- A CSV cell as rendered by `generateCSV` (line 1237): the interpolated
value wrapped in double quotes — no escaping of quotes inside the value. -/
def csvCell (cell : String) : String := "\"" ++ cell ++ "\""

/-- One CSV row: quoted cells joined by commas. -/
def csvRow (cells : List String) : String :=
  String.intercalate "," (cells.map csvCell)

/-- The header row of `generateCSV` (line 1218). -/
def csvHeader : List String :=
  ["URL", "Title", "Title Length", "Description", "Description Length",
   "H1 Count", "Images Total", "Images Without Alt", "Score", "Issues", "Warnings"]

/-- The data row pushed for one result (lines 1222-1234); numeric cells are
interpolated via JavaScript string coercion. -/
def csvRowOf (r : MetaAuditResult) : List String :=
  [r.url,
   (match r.title with | some t => t.content | none => ""),
   toString (match r.title with | some t => t.length | none => 0),
   (match r.description with | some d => d.content | none => ""),
   toString (match r.description with | some d => d.length | none => 0),
   toString r.h1.length,
   toString r.imagesTotal,
   toString r.imagesWithoutAlt,
   toString r.score,
   toString r.issues.length,
   toString r.warnings.length]

/-- `generateCSV` (lines 1215-1238) on a list of results (a single result
is wrapped into a one-element array by the source). -/
def generateCSV (results : List MetaAuditResult) : String :=
  String.intercalate "\n" ((csvHeader :: results.map csvRowOf).map csvRow)

/-! ## Concrete inputs used by the theorems -/

/-- A `span itemprop="name"` element with text `Widget` sitting directly
inside an item-scope (one `[itemscope]` ancestor, no attributes that define
a value of their own). -/
def widgetProp : MicroProp :=
  { itemprop := some "name", itemscopeParents := 1, hasItemscope := false
    content := none, src := none, href := none, text := "Widget" }

/-- A Product schema record whose properties hold only `name`. -/
def widgetRecord : SchemaRecord :=
  { format := "JSON-LD", type := Json.str "Product"
    properties := [("name", Json.str "Widget")]
    recErrors := [], recWarnings := [] }

/-- A JSON-LD script whose body fails to decode (`JSON.parse` throws with
this message). -/
def badScript : Except String Json :=
  .error "Unexpected token o in JSON at position 1"

/-- A JSON-LD script whose body decodes to a well-formed Product object. -/
def goodScript : Except String Json :=
  .ok (Json.obj [("@context", Json.str "https://schema.org"),
                 ("@type", Json.str "Product"),
                 ("name", Json.str "Widget")])

/-- A document with no structured-data annotations at all. -/
def emptyDoc : SDDoc :=
  { scripts := [], microdataItems := [], rdfaElements := [] }

/-- A document for which every cheerio query of `MetaExtractor.extract`
comes back empty. -/
def emptyMetaDoc : MetaDoc :=
  { titleText := ""
    description := none, keywords := none, robots := none, viewport := none
    charsetAttr := none, httpEquivContent := none
    ogTitle := none, ogDescription := none, ogImage := none, ogUrl := none
    ogType := none, ogSiteName := none
    twCard := none, twTitle := none, twDescription := none, twImage := none
    twSite := none, twCreator := none
    canonical := none
    h1 := [], h2 := [], h3 := [], h4 := [], h5 := [], h6 := []
    imgs := [], anchors := [] }

/-- The empty document with a single anchor whose href fails URL
resolution. -/
def badAnchorDoc : MetaDoc :=
  { emptyMetaDoc with anchors := [{ href := "http://", rel := none }] }

/-- A meta result whose title contains double-quote characters (the input of
the repository's own `should escape quotes in CSV` test). -/
def quotedTitleResult : MetaAuditResult :=
  { url := "https://example.com", timestamp := "T", status := "completed"
    title := some { content := "Title with \"quotes\"", length := 19 }
    description := some { content := "Description", length := 11 }
    keywords := none, robots := none, viewport := none, charset := none
    canonical := none
    ogTitle := none, ogDescription := none, ogImage := none, ogUrl := none
    ogType := none, ogSiteName := none
    twCard := none, twTitle := none, twDescription := none, twImage := none
    twSite := none, twCreator := none
    h1 := [], h2 := [], h3 := [], h4 := [], h5 := [], h6 := []
    imagesTotal := 0, imagesWithAlt := 0, imagesWithoutAlt := 0, imagesList := []
    linksInternal := 0, linksExternal := 0, linksTotal := 0
    issues := [], warnings := [], recommendations := []
    score := 100, errorField := none }

/-- An `AuditResult` with the timestamp field blanked, for comparing two
invocations of `parse` modulo the clock. -/
def eraseTimestamp (r : AuditResult) : AuditResult :=
  { r with timestamp := "" }

/-- A `MetaAuditResult` with the timestamp field blanked. -/
def metaEraseTimestamp (r : MetaAuditResult) : MetaAuditResult :=
  { r with timestamp := "" }

/-- Whether an anchor is considered by the link loop but fails URL
resolution (`new URL(href, pageUrl)` throws). -/
def anchorMalformed (resolveHost : String → Option String) (a : AnchorEl) : Bool :=
  anchorConsidered a && (resolveHost a.href).isNone

/-! ## Helper lemmas -/

/-- The `itemprop` filter condition of `_extractMicrodataProperties` is
constantly false: `!length` is a boolean, its numeric coercion is 0 or 1,
and neither exceeds 1. -/
theorem microPropGuard_false (p : MicroProp) : microPropGuard p = false := by
  unfold microPropGuard jsBoolToNum
  cases h : (p.itemscopeParents == 0) <;> simp

/-- One loop iteration of `_extractMicrodataProperties` leaves the schema
unchanged. -/
theorem microPropStep_id (sch : List (String × Json)) (p : MicroProp) :
    microPropStep sch p = sch := by
  simp [microPropStep, microPropGuard_false]

/-- `_extractMicrodataProperties` never adds, removes or alters a
property. -/
theorem extractMicrodataProperties_id (props : List MicroProp)
    (schema : List (String × Json)) :
    extractMicrodataProperties props schema = schema := by
  induction props generalizing schema with
  | nil => rfl
  | cons p ps ih =>
    simp only [extractMicrodataProperties, List.foldl_cons, microPropStep_id] at *
    exact ih schema

/-! ## Claim theorems -/

/-- C1: the claim states that every item-property descendant of an
item-scope element (outside nested item-scopes) contributes a property to
the resulting record, with value precedence content → src → href → trimmed
text. The code never collects any property: the filter
`propName && !$prop.parents('[itemscope]').length > 1` binds `!` to the
length alone, so it compares a boolean (coerced to 0 or 1) with 1 and is
always false. On the failing input — an item-scope of type
`https://schema.org/Product` with a single `itemprop="name"` descendant
whose text is `Widget` — the schema object keeps only the three literal
fields and gains no `name` property; in general the property-extraction
loop is the identity. -/
theorem c1_microdata_properties_never_collected :
    buildMicrodataSchema "https://schema.org/Product" [widgetProp] =
      [("@type", Json.str "Product"),
       ("@context", Json.str "http://schema.org"),
       ("_format", Json.str "Microdata")] ∧
    ∀ (props : List MicroProp) (schema : List (String × Json)),
      extractMicrodataProperties props schema = schema := by
  constructor
  · rfl
  · exact extractMicrodataProperties_id

/-- C3: `_calculateScore` computes 100 minus 15 per error string minus 5
per warning string, plus 10 when at least one schema was found, plus 5 more
when at least one JSON-LD record exists, clamped to [0, 100]; the result
always lies between 0 and 100; and the score the pipeline stores is exactly
this function of the accumulated record. -/
theorem c3_calculate_score_formula (E W S J : Nat) :
    (calculateScore E W S J =
      max 0 (min 100 (100 - 15 * (E : Int) - 5 * (W : Int) +
        (if S > 0 then 10 else 0) + (if J > 0 then 5 else 0))) ∧
     0 ≤ calculateScore E W S J ∧ calculateScore E W S J ≤ 100) ∧
    ∀ r : CoreState, (calculateScoreStep r).score =
      calculateScore r.errors.length r.warnings.length
        r.schemas.length r.formatsJsonLd.length := by
  refine ⟨⟨?_, ?_, ?_⟩, fun r => rfl⟩
  · unfold calculateScore
    split <;> split <;> ring_nf
  · unfold calculateScore
    exact le_max_left 0 _
  · unfold calculateScore
    exact max_le (by norm_num) (min_le_left 100 _)

/-- C4: the claim states that a malformed JSON-LD block yields exactly one
`Invalid JSON-LD: <cause>` error and one critical increment while a sibling
valid block still yields its SchemaRecord. The first half holds, but the
valid sibling never yields a record: `_processSchema` calls the undefined
method `_validateSchemaType`, whose TypeError is caught by the same
per-script handler, appending a second `Invalid JSON-LD` error and critical
increment instead of a record. Evaluation on a page with one malformed and
one valid Product block. -/
theorem c4_jsonld_sibling_block_yields_no_record :
    (parseJsonLd [badScript, goodScript] initCore).errors =
      ["Invalid JSON-LD: Unexpected token o in JSON at position 1",
       "Invalid JSON-LD: this._validateSchemaType is not a function"] ∧
    (parseJsonLd [badScript, goodScript] initCore).critical = 2 ∧
    (parseJsonLd [badScript, goodScript] initCore).formatsJsonLd = [] ∧
    (parseJsonLd [badScript, goodScript] initCore).schemas = [] := by
  refine ⟨rfl, rfl, rfl, rfl⟩

/-- C8: validating a Product record whose properties hold only `name`
appends exactly one required-property error (naming `image`) with exactly
one critical increment, and exactly one combined recommended-properties
warning listing description, sku, offers, aggregateRating, brand, review —
one warning-counter increment for that combined warning (the second
increment comes from the separate ratings/reviews rich-results warning,
which the claim does not mention and does not contradict). -/
theorem c8_product_name_only_validation :
    validateProduct widgetRecord initCore =
      { initCore with
          errors := ["Product missing required property: image"]
          critical := 1
          warnings :=
            ["Product missing recommended properties: description, sku, offers, aggregateRating, brand, review",
             "Product missing ratings/reviews - needed for rich results"]
          warningCount := 2 } ∧
    ((validateProduct widgetRecord initCore).warnings.filter
      (fun w => strStartsWith w "Product missing recommended properties")).length = 1 := by
  refine ⟨rfl, rfl⟩

/-! ## Deduction bounds for the meta-tag scoring pass -/

theorem extractTitle_ded_le (t : String) : (extractTitle t).ded ≤ 20 := by
  simp only [extractTitle]
  split_ifs <;> simp

theorem metaDescPart_ded_le (o : Option String) : (metaDescPart o).2.2.2 ≤ 15 := by
  rcases o with _ | d <;> simp only [metaDescPart]
  · simp
  · split_ifs <;> simp

theorem metaViewportPart_ded_le (o : Option String) :
    (metaViewportPart o).2.2.2 ≤ 10 := by
  rcases o with _ | v <;> simp only [metaViewportPart]
  · simp
  · split_ifs <;> simp

theorem metaOgPart_ded_le (a b c d e f : Option String) :
    (metaOgPart a b c d e f).2 ≤ 5 := by
  simp only [metaOgPart]
  split_ifs <;> simp

theorem metaTwPart_ded_le (a b c d e f : Option String) :
    (metaTwPart a b c d e f).2 ≤ 3 := by
  simp only [metaTwPart]
  split_ifs <;> simp

theorem extractMetaTags_ded_le (doc : MetaDoc) : (extractMetaTags doc).ded ≤ 33 := by
  have h1 := metaDescPart_ded_le doc.description
  have h2 := metaViewportPart_ded_le doc.viewport
  have h3 := metaOgPart_ded_le doc.ogTitle doc.ogDescription doc.ogImage
    doc.ogUrl doc.ogType doc.ogSiteName
  have h4 := metaTwPart_ded_le doc.twCard doc.twTitle doc.twDescription
    doc.twImage doc.twSite doc.twCreator
  simp only [extractMetaTags]
  omega

theorem extractCanonical_ded_le (o : Option String) (uv : String → Bool) :
    (extractCanonical o uv).ded ≤ 5 := by
  rcases o with _ | c <;> simp only [extractCanonical]
  · simp
  · split_ifs <;> simp

theorem extractHeadings_ded_le (doc : MetaDoc) : (extractHeadings doc).ded ≤ 13 := by
  simp only [extractHeadings]
  split_ifs <;> simp

theorem extractImages_ded_le (imgs : List ImgEl) : (extractImages imgs).ded ≤ 20 := by
  have h1 : min 15 ((scanImages imgs).withoutAlt * 2) ≤ 15 := Nat.min_le_left _ _
  have h2 : ∀ n : Nat, min 5 n ≤ 5 := fun n => Nat.min_le_left _ _
  simp only [extractImages]
  split_ifs <;> simp
  omega

/-- The meta score of every result lies in [0, 100]: the error path leaves
it at 100, the success path subtracts at most 20+33+5+13+20 = 91 points. -/
theorem extract_score_bounds (url : String)
    (fetched : Except String (MetaDoc × String)) (uv : String → Bool)
    (rh : String → Option String) (t : String) :
    0 ≤ (extract url fetched uv rh t).score ∧
      (extract url fetched uv rh t).score ≤ 100 := by
  rcases fetched with m | ⟨doc, ph⟩
  · constructor <;> norm_num [extract, metaErrorResult]
  · have h1 := extractTitle_ded_le doc.titleText
    have h2 := extractMetaTags_ded_le doc
    have h3 := extractCanonical_ded_le doc.canonical uv
    have h4 := extractHeadings_ded_le doc
    have h5 := extractImages_ded_le doc.imgs
    simp only [extract]
    refine ⟨?_, ?_⟩ <;> push_cast <;> omega

/-! ## Image and link loop invariants -/

/-- Structural facts of the `$('img').each` loop: the total splits into
`withAlt` plus `withoutAlt`; only images with a truthy `src` are counted or
stored; `withAlt`/`withoutAlt` count exactly the counted images with/without
a good alt. -/
theorem scanImages_spec (imgs : List ImgEl) :
    (scanImages imgs).total = (scanImages imgs).withAlt + (scanImages imgs).withoutAlt ∧
    (scanImages imgs).total = (imgs.filter imgCounted).length ∧
    (scanImages imgs).withAlt =
      (imgs.filter (fun i => imgCounted i && imgGoodAlt i)).length ∧
    (scanImages imgs).withoutAlt =
      (imgs.filter (fun i => imgCounted i && !imgGoodAlt i)).length ∧
    (scanImages imgs).infos.length = (scanImages imgs).total := by
  induction imgs with
  | nil => simp [scanImages]
  | cons i rest ih =>
    by_cases hc : imgCounted i
    · by_cases hg : imgGoodAlt i <;>
        simp [scanImages, hc, hg, List.filter_cons] <;> omega
    · simp [scanImages, hc, List.filter_cons]
      exact ih

/-- Structural fact of the `$('a[href]').each` loop: `total` counts every
considered anchor, `internal`/`external` only those whose href resolves, so
the difference is exactly the malformed ones. -/
theorem scanLinks_total_split (rh : String → Option String) (ph : String)
    (anchors : List AnchorEl) :
    (scanLinks rh ph anchors).total =
      (scanLinks rh ph anchors).internal + (scanLinks rh ph anchors).external +
      (anchors.filter (anchorMalformed rh)).length := by
  induction anchors with
  | nil => simp [scanLinks]
  | cons a rest ih =>
    by_cases hc : anchorConsidered a
    · rcases hh : rh a.href with _ | h
      · simp [scanLinks, hc, hh, List.filter_cons, anchorMalformed]
        omega
      · by_cases hp : h == ph
        · simp [scanLinks, hc, hh, hp, List.filter_cons, anchorMalformed]
          omega
        · by_cases hr : !strContains (jsOrStr a.rel "") "nofollow" &&
              !strContains (jsOrStr a.rel "") "noopener" <;>
            simp [scanLinks, hc, hh, hp, hr, List.filter_cons, anchorMalformed] <;>
            omega
    · simp [scanLinks, hc, List.filter_cons, anchorMalformed]
      exact ih

/-- C2 (counterexample): the claim states that on a failed fetch the result
record's score is 0 or undefined. It is neither: both `parse` and `extract`
initialise `score` to 100 and the catch block never touches it, so the
error record carries score 100. -/
theorem c2_error_record_score_is_100_not_0 :
    (parse "https://example.com" (.error "Network error") (fun _ => false)
      "2024-01-01T00:00:00.000Z").score = 100 ∧
    (parse "https://example.com" (.error "Network error") (fun _ => false)
      "2024-01-01T00:00:00.000Z").score ≠ 0 ∧
    (extract "https://example.com" (.error "Network error") (fun _ => false)
      (fun _ => none) "2024-01-01T00:00:00.000Z").score = 100 ∧
    (extract "https://example.com" (.error "Network error") (fun _ => false)
      (fun _ => none) "2024-01-01T00:00:00.000Z").score ≠ 0 := by
  refine ⟨rfl, by decide, rfl, by decide⟩

/-- C2 (amended): for every failing fetch, `parse` and `extract` return
normally — both are total functions of the failure message — with
`status = "error"`, the failure message in the `error` field, the
corresponding failure entry appended, and the score left at its initialised
value 100 (not 0 or undefined). -/
theorem c2_fetch_failure_handled (url m t : String) (dv : Json → Bool)
    (uv : String → Bool) (rh : String → Option String) :
    ((parse url (.error m) dv t).status = "error" ∧
     (parse url (.error m) dv t).errorField = some m ∧
     (parse url (.error m) dv t).errors = ["Failed to fetch URL: " ++ m] ∧
     (parse url (.error m) dv t).score = 100) ∧
    ((extract url (.error m) uv rh t).status = "error" ∧
     (extract url (.error m) uv rh t).errorField = some m ∧
     (extract url (.error m) uv rh t).issues = ["Failed to analyze URL: " ++ m] ∧
     (extract url (.error m) uv rh t).score = 100) := by
  exact ⟨⟨rfl, rfl, rfl, rfl⟩, ⟨rfl, rfl, rfl, rfl⟩⟩

/-- C5 (counterexample): the claim states that for some input document the
returned meta score is below 0. No input achieves this: the deductions of
the meta pass are bounded by 91, so the score never drops below 9. -/
theorem c5_no_meta_score_below_zero :
    ¬ ∃ (url : String) (fetched : Except String (MetaDoc × String))
        (uv : String → Bool) (rh : String → Option String) (t : String),
        (extract url fetched uv rh t).score < 0 := by
  rintro ⟨url, fetched, uv, rh, t, h⟩
  exact absurd h (not_lt.mpr (extract_score_bounds url fetched uv rh t).1)

/-- C5 (amended): the meta scoring pass indeed applies its deductions with
no final clamp expression, but the total deduction is bounded (by 91), so
the returned meta score always lies in [0, 100] — it can never go below
0. -/
theorem c5_meta_score_always_in_range (url : String)
    (fetched : Except String (MetaDoc × String)) (uv : String → Bool)
    (rh : String → Option String) (t : String) :
    0 ≤ (extract url fetched uv rh t).score ∧
      (extract url fetched uv rh t).score ≤ 100 :=
  extract_score_bounds url fetched uv rh t

/-- C6 (counterexample): the claim states that a malformed href is not
counted in `links.total` and that `total = internal + external` always
holds. On a page with a single anchor whose href fails URL resolution,
`total` is 1 while `internal` and `external` are both 0, because
`results.links.total++` runs before the `try` block that classifies the
link. -/
theorem c6_malformed_href_is_counted_in_total :
    (extract "https://example.com" (.ok (badAnchorDoc, "example.com"))
      (fun _ => false) (fun _ => none) "2024-01-01T00:00:00.000Z").linksTotal = 1 ∧
    (extract "https://example.com" (.ok (badAnchorDoc, "example.com"))
      (fun _ => false) (fun _ => none) "2024-01-01T00:00:00.000Z").linksInternal = 0 ∧
    (extract "https://example.com" (.ok (badAnchorDoc, "example.com"))
      (fun _ => false) (fun _ => none) "2024-01-01T00:00:00.000Z").linksExternal = 0 ∧
    (extract "https://example.com" (.ok (badAnchorDoc, "example.com"))
      (fun _ => false) (fun _ => none) "2024-01-01T00:00:00.000Z").linksTotal ≠
      (extract "https://example.com" (.ok (badAnchorDoc, "example.com"))
        (fun _ => false) (fun _ => none) "2024-01-01T00:00:00.000Z").linksInternal +
      (extract "https://example.com" (.ok (badAnchorDoc, "example.com"))
        (fun _ => false) (fun _ => none) "2024-01-01T00:00:00.000Z").linksExternal := by
  refine ⟨rfl, rfl, rfl, by decide⟩

/-- C6 (amended): an anchor whose href fails URL resolution is silently
skipped by the internal/external classification (and produces no issue or
warning), but it is counted in `links.total`; consequently
`links.total = links.internal + links.external + number of malformed
hrefs` for every successfully fetched result. -/
theorem c6_links_total_splits_with_malformed (url : String) (doc : MetaDoc)
    (pageHost : String) (uv : String → Bool) (rh : String → Option String)
    (t : String) :
    (extract url (.ok (doc, pageHost)) uv rh t).linksTotal =
      (extract url (.ok (doc, pageHost)) uv rh t).linksInternal +
      (extract url (.ok (doc, pageHost)) uv rh t).linksExternal +
      (doc.anchors.filter (anchorMalformed rh)).length := by
  simpa only [extract, extractLinks] using scanLinks_total_split rh pageHost doc.anchors

set_option maxRecDepth 8000 in
/-- C7: the claim (and the repository's own `should escape quotes in CSV`
test) states that double quotes inside a CSV cell value are doubled. The
code wraps each interpolated cell in double quotes without escaping
anything, so a title containing quotes is emitted verbatim: the CSV
contains the unescaped `"Title with "quotes""` and not the doubled form
`Title with ""quotes""` the test expects. -/
theorem c7_csv_quotes_not_doubled :
    strContains (generateCSV [quotedTitleResult])
      ("\"Title with \"quotes\"\"") = true ∧
    strContains (generateCSV [quotedTitleResult])
      ("Title with \"\"quotes\"\"") = false := by
  refine ⟨rfl, rfl⟩

/-- C9 (counterexample): the claim states that two invocations of the
pipeline on the identical DOM tree yield byte-identical result records. The
records embed `new Date().toISOString()`, so two invocations at different
clock readings differ (in the timestamp field), for both the structured-data
parse and the meta extract. -/
theorem c9_two_invocations_differ_in_timestamp :
    parse "https://example.com/" (.ok emptyDoc) (fun _ => false)
        "2024-01-01T00:00:00.000Z" ≠
      parse "https://example.com/" (.ok emptyDoc) (fun _ => false)
        "2024-01-01T00:00:01.000Z" ∧
    extract "https://example.com/" (.ok (emptyMetaDoc, "example.com"))
        (fun _ => false) (fun _ => none) "2024-01-01T00:00:00.000Z" ≠
      extract "https://example.com/" (.ok (emptyMetaDoc, "example.com"))
        (fun _ => false) (fun _ => none) "2024-01-01T00:00:01.000Z" := by
  constructor
  · intro h
    exact absurd (congrArg AuditResult.timestamp h) (by decide)
  · intro h
    exact absurd (congrArg MetaAuditResult.timestamp h) (by decide)

/-- C9 (amended): apart from the clock-supplied timestamp field, the result
record is a pure function of the fetched document (and the oracles standing
for the platform URL/date parsers): two invocations on the identical input
agree on every other field, for both `parse` and `extract`. There is no
hidden incrementing global state — each call builds its result from the
freshly initialised record alone. -/
theorem c9_pipeline_deterministic_modulo_timestamp (url : String)
    (fetched : Except String SDDoc) (dv : Json → Bool)
    (metaFetched : Except String (MetaDoc × String)) (uv : String → Bool)
    (rh : String → Option String) (t1 t2 : String) :
    eraseTimestamp (parse url fetched dv t1) =
      eraseTimestamp (parse url fetched dv t2) ∧
    metaEraseTimestamp (extract url metaFetched uv rh t1) =
      metaEraseTimestamp (extract url metaFetched uv rh t2) := by
  constructor
  · rfl
  · rcases metaFetched with m | ⟨doc, ph⟩ <;> rfl

/-- C10: for every successfully fetched page the image counters satisfy
`total = withAlt + withoutAlt`; an `img` with no `src` attribute (or an
empty one — `if (src)`) is excluded from all three counters and from the
stored list, whose length equals `total`; and a counted `img` whose `alt`
is absent, empty, or whitespace-only fails `alt && alt.trim()` and is
counted in `withoutAlt`. -/
theorem c10_image_counters_invariant (url : String) (doc : MetaDoc)
    (pageHost : String) (uv : String → Bool) (rh : String → Option String)
    (t : String) :
    ((extract url (.ok (doc, pageHost)) uv rh t).imagesTotal =
       (extract url (.ok (doc, pageHost)) uv rh t).imagesWithAlt +
       (extract url (.ok (doc, pageHost)) uv rh t).imagesWithoutAlt ∧
     (extract url (.ok (doc, pageHost)) uv rh t).imagesTotal =
       (doc.imgs.filter imgCounted).length ∧
     (extract url (.ok (doc, pageHost)) uv rh t).imagesWithoutAlt =
       (doc.imgs.filter (fun i => imgCounted i && !imgGoodAlt i)).length ∧
     (extract url (.ok (doc, pageHost)) uv rh t).imagesList.length =
       (extract url (.ok (doc, pageHost)) uv rh t).imagesTotal) ∧
    (∀ i : ImgEl, i.src = none → imgCounted i = false) ∧
    (∀ i : ImgEl,
      i.alt = none ∨ i.alt = some "" ∨ (∃ a, i.alt = some a ∧ strTrim a = "") →
      imgGoodAlt i = false) := by
  obtain ⟨h1, h2, _h3, h4, h5⟩ := scanImages_spec doc.imgs
  refine ⟨⟨?_, ?_, ?_, ?_⟩, ?_, ?_⟩
  · simpa only [extract, extractImages] using h1
  · simpa only [extract, extractImages] using h2
  · simpa only [extract, extractImages] using h4
  · simpa only [extract, extractImages] using h5
  · intro i hi
    simp [imgCounted, strTruthy, hi]
  · rintro i (hi | hi | ⟨a, ha, hta⟩) <;> simp [imgGoodAlt, *]

end SeoAudit
